import Mathlib

set_option maxRecDepth 100000

/-
Verification of the LinkedIn content generator
(src/content_researcher.py) against its specification.

The Python source is shallowly embedded: prompt construction is pure
string concatenation, dictionary lookups that can raise KeyError become
Option-returning functions, the interactive session consumes an explicit
list of stdin tokens, and the two external HTTP services (research and
text generation) are abstracted as opaque string functions, exactly as
the spec treats them ("accessed as opaque request/response services").
-/

/-- Enum `PostFormat` from the source: the four post format variants. -/
inductive PostFormat where
  | FACTS_WITH_EMOJI
  | STORY_BASED
  | GUIDE_BASED
  | INDUSTRY_INSIGHT
deriving DecidableEq, Repr

/-- A runtime value passed as `format_type`. Python is dynamically typed:
`PostConfig.__init__` performs no check, so `format_type` is either one of
the four `PostFormat` enum members or some other runtime value (modelled
by its printed representation). `formats.get` distinguishes exactly these
two cases. -/
inductive FormatValue where
  | enum (f : PostFormat)
  | other (repr : String)
deriving DecidableEq

/-- Class `PostConfig` from the source. `__init__` stores its four
arguments unchanged with defaults `length="medium"`,
`is_customer_story=False`; it performs no validation. -/
structure PostConfig where
  format_type : FormatValue
  topic : String
  length : String := "medium"
  is_customer_story : Bool := false
deriving DecidableEq

/-- The `base_prompt` f-string of `_create_format_prompt`. -/
def base_prompt (topic : String) : String :=
  "Format this research about " ++ topic ++ " into a LinkedIn post."

/-- The `length_guide` dictionary of `_create_format_prompt`; subscript
access `length_guide[config.length]` raises `KeyError` on any other key,
modelled by `none`. -/
def length_guide (length : String) : Option String :=
  if length = "short" then some "Keep the post concise, around 150-200 words."
  else if length = "medium" then some "Aim for around 250-300 words total."
  else if length = "long" then some "Create a more detailed post of around 350-450 words."
  else none

/-- The `formats` dictionary of `_create_format_prompt`: one f-string
template per `PostFormat` member, each interpolating the already looked-up
length guide (and, for `INDUSTRY_INSIGHT`, the topic). -/
def formats (topic guide : String) : PostFormat → String
  | .FACTS_WITH_EMOJI =>
      "\n            Structure the post exactly like this:\n            \n            [Title] Create an attention-grabbing headline that's insightful without being hyperbolic.\n            \n            [Two opening lines about the topic that provide non-obvious, slightly contrarian takes]\n            \n            1️⃣ [Point 1]\n            2️⃣ [Point 2]\n            3️⃣ [Point 3]\n            4️⃣ [Point 4]\n            5️⃣ [Point 5]\n            \n            [Two closing lines that are insightful and thought-provoking, drawing on the points above]\n            \n            Use exactly 4-5 emojis total throughout the post (including title). Place the emojis naturally within the text.\n            "
        ++ guide ++ "\n            "
  | .STORY_BASED =>
      "\n            Structure the post as a personal story or customer case study:\n            \n            [Opening paragraph describing a real situation or conversation that hooks the reader]\n            \n            💡 [Key insight 1 from the situation]\n            \n            🔍 [Key insight 2 with deeper analysis]\n            \n            ⚡ [Practical takeaway or lesson learned]\n            \n            [Final thought and question to engage readers]\n            \n            Use 3-4 emojis strategically placed throughout the post.\n            "
        ++ guide ++ "\n            "
  | .GUIDE_BASED =>
      "\n            Structure the post as an educational guide:\n            \n            **[Title framed as a guide]** 👇\n            \n            [Brief introduction explaining why this topic matters]\n            \n            🧠 [Section 1 - Definition or conceptual explanation]\n            \n            🤖 [Section 2 - Further explanation or comparison]\n            \n            ⚡ [Section 3 - Practical application]\n            \n            💡 [Key takeaway and why it matters]\n            \n            [Engaging question to prompt discussion]\n            \n            Use 4-5 emojis thoughtfully placed throughout the post.\n            "
        ++ guide ++ "\n            "
  | .INDUSTRY_INSIGHT =>
      "\n            Structure the post as an industry insight:\n            \n            [Title highlighting an interesting trend or observation about "
        ++ topic
        ++ "] 🍽️\n            \n            [Opening paragraph setting context for why this matters and mentioning data/trends]\n            \n            1️⃣ **[Point 1]**: [Factual insight with specific statistics]\n            2️⃣ **[Point 2]**: [Factual insight with specific statistics]\n            3️⃣ **[Point 3]**: [Factual insight with specific statistics]\n            4️⃣ **[Point 4]**: [Factual insight with specific statistics]\n            \n            [Closing thought that makes readers think differently about the topic]\n            \n            [Question to engage audience]\n            \n            Use 4-5 emojis thoughtfully placed throughout the post.\n            "
        ++ guide ++ "\n            "

/-- `formats.get(config.format_type, formats[PostFormat.FACTS_WITH_EMOJI])`:
dictionary lookup with the facts-with-emoji template as default for any
key that is not one of the four enum members. -/
def formatsGet (topic guide : String) : FormatValue → String
  | .enum f => formats topic guide f
  | .other _ => formats topic guide .FACTS_WITH_EMOJI

/-- The `customer_story_note` conditional expression of
`_create_format_prompt`: the framing fragment when
`config.is_customer_story` is true, otherwise the empty string. -/
def customer_story_note (is_customer_story : Bool) : String :=
  if is_customer_story then
    "\n        Since this is based on a customer story, make sure to frame it as a real experience \n        or conversation you had with a client or prospect. Focus on the problem they faced,\n        the insights you provided, and the valuable lesson that others can learn from.\n        "
  else ""

/-- The trailing fixed part of the `full_prompt` f-string, followed by the
research text. -/
def prompt_tail (research_content : String) : String :=
  "\n        \n        Return the post as plain text with proper line breaks.\n        Do not include any text formatting symbols, just the plain text and emojis.\n        The reader should leave feeling like they've taken in valuable insights and information.\n\n        Here's the research:\n        "
    ++ research_content

/-- The `full_prompt` f-string of `_create_format_prompt`, given the
looked-up length guide. -/
def full_prompt (research_content : String) (config : PostConfig) (guide : String) : String :=
  base_prompt config.topic
    ++ "\n        \n        "
    ++ formatsGet config.topic guide config.format_type
    ++ "\n        \n        "
    ++ customer_story_note config.is_customer_story
    ++ prompt_tail research_content

/-- `ClaudePostFormatter._create_format_prompt`. The only failure point is
the `length_guide[config.length]` subscript (evaluated while building the
`formats` dictionary): an unknown length raises `KeyError`, i.e. `none`. -/
def create_format_prompt (research_content : String) (config : PostConfig) : Option String :=
  (length_guide config.length).map (full_prompt research_content config)

/-- Substring relation on strings (at the character-list level):
`HasSub hay needle` says `needle` occurs contiguously inside `hay`. -/
def HasSub (hay needle : String) : Prop :=
  ∃ s t : List Char, hay.data = s ++ needle.data ++ t

/-- Boolean test that `a` is an initial segment of `b`. -/
def startsWithL : List Char → List Char → Bool
  | [], _ => true
  | _ :: _, [] => false
  | a :: as, b :: bs => a == b && startsWithL as bs

/-- Boolean substring scan: does `needle` occur contiguously in the list? -/
def occursL (needle : List Char) : List Char → Bool
  | [] => needle.isEmpty
  | h :: t => startsWithL needle (h :: t) || occursL needle t

/-- Executable version of `HasSub`. -/
def occursIn (hay needle : String) : Bool :=
  occursL needle.data hay.data

/-- The body of the streaming loop in `PerplexityResearcher._stream_response`:
each chunk's delta content is `None` or a text fragment; non-`None`
fragments are appended to the accumulator in arrival order, then joined.
The chunk is reduced to its first choice's delta content, the only part
the code reads. -/
def stream_response (chunks : List (Option String)) : String :=
  String.join
    (chunks.foldl
      (fun content c =>
        match c with
        | some content_piece => content ++ [content_piece]
        | none => content)
      [])

/-- `PerplexityResearcher._get_complete_response`: returns the response
body's message content field directly. -/
def get_complete_response (body : String) : String := body

/-- `PerplexityResearcher.get_research`, parameterised by the upstream
content: the stream of delta chunks seen on the streaming path and the
body text seen on the single-shot path. -/
def get_research (stream : Bool) (chunks : List (Option String)) (body : String) : String :=
  if stream then stream_response chunks else get_complete_response body

/-- `PerplexityResearcher`: holds the research-service API key. -/
structure PerplexityResearcher where
  api_key : String
deriving DecidableEq

/-- `ClaudePostFormatter`: holds the generation-service API key. -/
structure ClaudePostFormatter where
  api_key : String
deriving DecidableEq

/-- `LinkedInPostGenerator`: the two service clients built at startup. -/
structure LinkedInPostGenerator where
  researcher : PerplexityResearcher
  formatter : ClaudePostFormatter
deriving DecidableEq

/-- Python truthiness of `os.getenv`'s result: falsy when the variable is
absent (`None`) or set to the empty string. -/
def truthy : Option String → Bool
  | none => false
  | some s => !(s == "")

/-- `LinkedInPostGenerator.__init__` over an abstract process environment:
checks the research-service key, then the generation-service key, raising
`ValueError` (modelled by `Except.error` with the literal message) before
either service client is constructed; only on success are the two clients
built. -/
def generator_init (env : String → Option String) : Except String LinkedInPostGenerator :=
  let perplexity_key := env "PERPLEXITY_API_KEY"
  if truthy perplexity_key then
    let anthropic_key := env "ANTHROPIC_API_KEY"
    if truthy anthropic_key then
      Except.ok ⟨⟨perplexity_key.getD ""⟩, ⟨anthropic_key.getD ""⟩⟩
    else Except.error "ANTHROPIC_API_KEY not found in environment variables"
  else Except.error "PERPLEXITY_API_KEY not found in environment variables"

/-- The two external services as the spec treats them: opaque
request/response functions (research fetch, post generation, post
revision). -/
structure Services where
  research : String → String
  format_post : String → PostConfig → String
  revise_post : String → String → String

/-- An input-reading loop `while choice not in valid: choice = input(...)`:
consumes stdin tokens until one is in `valid`; `none` models `EOFError`
when stdin runs out. -/
def read_valid_choice (valid : List String) : List String → Option (String × List String)
  | [] => none
  | x :: rest => if x ∈ valid then some (x, rest) else read_valid_choice valid rest

/-- The `format_map` dictionary of `get_user_preferences`. -/
def format_map : String → Option FormatValue
  | "1" => some (.enum .FACTS_WITH_EMOJI)
  | "2" => some (.enum .STORY_BASED)
  | "3" => some (.enum .GUIDE_BASED)
  | "4" => some (.enum .INDUSTRY_INSIGHT)
  | _ => none

/-- The `length_map` dictionary of `get_user_preferences`. -/
def length_map : String → Option String
  | "1" => some "short"
  | "2" => some "medium"
  | "3" => some "long"
  | _ => none

/-- Python's `str.lower()` as used on the customer-story answer:
character-wise lowercasing. -/
def str_lower (s : String) : String := ⟨s.data.map Char.toLower⟩

/-- The customer-story block of `get_user_preferences`: `is_customer_story`
starts as `False`; only when the format choice was "2" is one answer token
read and lower-cased, and the flag becomes whether it equals "y". `none`
models `EOFError` when the answer must be read but stdin is exhausted. -/
def ask_customer (format_choice : String) (rest2 : List String) : Option (Bool × List String) :=
  if format_choice = "2" then
    match rest2 with
    | [] => none
    | customer_choice :: rest3 => some (str_lower customer_choice == "y", rest3)
  else some (false, rest2)

/-- `LinkedInPostGenerator.get_user_preferences` over an explicit stdin
token list: reads the topic, a format choice (re-prompting until one of
1-4), the customer-story yes/no answer only when the choice was "2", and
a length choice (re-prompting until one of 1-3); returns the constructed
`PostConfig` and the unconsumed stdin. `none` models `EOFError` on
exhausted input (and the unreachable `KeyError` branches of the two
dictionaries). -/
def get_user_preferences (stdin : List String) : Option (PostConfig × List String) :=
  match stdin with
  | [] => none
  | topic :: rest =>
    (read_valid_choice ["1", "2", "3", "4"] rest).bind fun (format_choice, rest2) =>
    (format_map format_choice).bind fun format_type =>
    (ask_customer format_choice rest2).bind fun (is_customer_story, rest3) =>
    (read_valid_choice ["1", "2", "3"] rest3).bind fun (length_choice, rest4) =>
    (length_map length_choice).map fun length =>
    (⟨format_type, topic, length, is_customer_story⟩, rest4)

/-- `LinkedInPostGenerator.generate_post` with an explicit config:
research the topic, then format the research. -/
def generate_post (svc : Services) (config : PostConfig) : String :=
  svc.format_post (svc.research config.topic) config

/-- Outcome of the `while True` review loop in `feedback_loop`. -/
inductive ReviewOutcome where
  | accepted (post : String) (rest : List String)
  | restart (rest : List String)
  | eof
deriving DecidableEq

/-- The `while True` menu loop of `feedback_loop`: choice "1" reads one
feedback token, replaces the post by `revise_post post feedback` and
loops; "2" returns the current post; "3" restarts; anything else
re-prompts with nothing changed. `eof` models `EOFError` on exhausted
stdin. -/
def review_loop (svc : Services) (post : String) : List String → ReviewOutcome
  | [] => .eof
  | choice :: rest =>
    if choice = "1" then
      match rest with
      | [] => .eof
      | feedback :: rest2 => review_loop svc (svc.revise_post post feedback) rest2
    else if choice = "2" then .accepted post rest
    else if choice = "3" then .restart rest
    else review_loop svc post rest

/-- A deterministic stand-in for the two external services, used only to
evaluate the session-controller theorems on concrete inputs. -/
def demo_services : Services where
  research := fun topic => "research about " ++ topic
  format_post := fun research_content config => "post(" ++ config.topic ++ "|" ++ research_content ++ ")"
  revise_post := fun post feedback => post ++ "+" ++ feedback

/-- The stdin tokens of a review session that picks "revise" once per
feedback string: choice "1" followed by the feedback text, repeatedly. -/
def revise_script : List String → List String
  | [] => []
  | feedback :: t => "1" :: feedback :: revise_script t

/-- `LinkedInPostGenerator.feedback_loop`: collect a config, generate the
initial post, run the review loop; on restart the whole function recurses
on the remaining stdin. `fuel` bounds the recursion depth (the source
recurses unboundedly); `none` models `EOFError` or fuel exhaustion. -/
def feedback_loop : Nat → Services → List String → Option String
  | 0, _, _ => none
  | Nat.succ fuel, svc, stdin =>
    match get_user_preferences stdin with
    | none => none
    | some (config, rest) =>
      match review_loop svc (generate_post svc config) rest with
      | .accepted post _ => some post
      | .restart r2 => feedback_loop fuel svc r2
      | .eof => none


theorem data_app (a b : String) : (a ++ b).data = a.data ++ b.data := rfl

theorem startsWithL_iff (a b : List Char) :
    startsWithL a b = true ↔ ∃ r, b = a ++ r := by
  induction a generalizing b with
  | nil => simp [startsWithL]
  | cons x xs ih =>
    cases b with
    | nil =>
      simp [startsWithL]
    | cons y ys =>
      show (x == y && startsWithL xs ys) = true ↔ ∃ r, y :: ys = x :: xs ++ r
      rw [Bool.and_eq_true, beq_iff_eq, ih]
      constructor
      · rintro ⟨rfl, r, rfl⟩
        exact ⟨r, rfl⟩
      · rintro ⟨r, hr⟩
        rcases List.cons_eq_cons.mp hr with ⟨rfl, h2⟩
        exact ⟨rfl, r, h2⟩

theorem occursL_iff (n h : List Char) :
    occursL n h = true ↔ ∃ s t, h = s ++ n ++ t := by
  induction h with
  | nil =>
    simp only [occursL, List.isEmpty_iff]
    constructor
    · rintro rfl
      exact ⟨[], [], rfl⟩
    · rintro ⟨s, t, hst⟩
      rcases List.append_eq_nil.mp (List.append_eq_nil.mp hst.symm).1 with ⟨_, h2⟩
      exact h2
  | cons c cs ih =>
    simp only [occursL, Bool.or_eq_true, startsWithL_iff, ih]
    constructor
    · rintro (⟨r, hr⟩ | ⟨s, t, rfl⟩)
      · exact ⟨[], r, by simpa using hr⟩
      · exact ⟨c :: s, t, by simp⟩
    · rintro ⟨s, t, hst⟩
      cases s with
      | nil =>
        exact Or.inl ⟨t, by simpa using hst⟩
      | cons x xs =>
        rcases List.cons_eq_cons.mp hst with ⟨rfl, h2⟩
        exact Or.inr ⟨xs, t, h2⟩

theorem hasSub_iff (hay needle : String) :
    HasSub hay needle ↔ occursIn hay needle = true := by
  unfold HasSub occursIn
  rw [occursL_iff]

theorem hasSub_trans (a b c : String) (h1 : HasSub a b) (h2 : HasSub b c) :
    HasSub a c := by
  obtain ⟨s, t, hst⟩ := h1
  obtain ⟨u, v, huv⟩ := h2
  exact ⟨s ++ u, v ++ t, by rw [hst, huv]; simp [List.append_assoc]⟩

theorem create_eq_some (research_content : String) (config : PostConfig) (p : String) :
    create_format_prompt research_content config = some p ↔
      ∃ g, length_guide config.length = some g ∧ full_prompt research_content config g = p := by
  simp [create_format_prompt, Option.map_eq_some']

/-- The topic sits verbatim inside `base_prompt`, the first piece of every
full prompt. -/
theorem full_prompt_topic (research_content : String) (config : PostConfig) (g : String) :
    HasSub (full_prompt research_content config g) config.topic := by
  refine ⟨"Format this research about ".data,
    (" into a LinkedIn post."
      ++ "\n        \n        "
      ++ formatsGet config.topic g config.format_type
      ++ "\n        \n        "
      ++ customer_story_note config.is_customer_story
      ++ prompt_tail research_content).data, ?_⟩
  simp [full_prompt, base_prompt, data_app, List.append_assoc]

/-- Every template returned by the `formats.get` lookup is some head,
then the interpolated length guide, then a trailing indented newline. -/
theorem formatsGet_split (topic g : String) (fv : FormatValue) :
    ∃ A B : List Char, (formatsGet topic g fv).data = A ++ g.data ++ B := by
  have key : ∀ a b c : String, ∃ A B : List Char, (a ++ b ++ c).data = A ++ b.data ++ B :=
    fun a b c => ⟨a.data, c.data, by simp only [data_app, List.append_assoc]⟩
  have hB : ∀ f : PostFormat, ∃ A B : List Char, (formats topic g f).data = A ++ g.data ++ B := by
    intro f
    cases f <;> · simp only [formats]; exact key _ _ _
  cases fv with
  | enum f => exact hB f
  | other s => exact hB .FACTS_WITH_EMOJI

/-- The looked-up length guide sits verbatim inside every full prompt. -/
theorem full_prompt_guide (research_content : String) (config : PostConfig) (g : String) :
    HasSub (full_prompt research_content config g) g := by
  obtain ⟨A, B, hAB⟩ := formatsGet_split config.topic g config.format_type
  refine ⟨(base_prompt config.topic).data ++ "\n        \n        ".data ++ A,
    B ++ "\n        \n        ".data
      ++ (customer_story_note config.is_customer_story).data
      ++ (prompt_tail research_content).data, ?_⟩
  simp [full_prompt, data_app, List.append_assoc, hAB]

/-- When `is_customer_story` is true, the framing fragment sits verbatim
inside the full prompt, whatever the format template. -/
theorem full_prompt_note (research_content : String) (config : PostConfig) (g : String)
    (hcs : config.is_customer_story = true) :
    HasSub (full_prompt research_content config g) (customer_story_note true) := by
  refine ⟨(base_prompt config.topic).data ++ "\n        \n        ".data
      ++ (formatsGet config.topic g config.format_type).data ++ "\n        \n        ".data,
    (prompt_tail research_content).data, ?_⟩
  simp [full_prompt, data_app, List.append_assoc, hcs]

/-- The selected format template sits verbatim inside the full prompt. -/
theorem full_prompt_template (research_content : String) (config : PostConfig) (g : String) :
    HasSub (full_prompt research_content config g)
      (formatsGet config.topic g config.format_type) := by
  refine ⟨(base_prompt config.topic).data ++ "\n        \n        ".data,
    "\n        \n        ".data ++ (customer_story_note config.is_customer_story).data
      ++ (prompt_tail research_content).data, ?_⟩
  simp [full_prompt, data_app, List.append_assoc]

/-- The facts-with-emoji template contains the 5-point emoji-numbered
block, for every topic and guide. -/
theorem facts_block (topic g : String) :
    HasSub (formats topic g .FACTS_WITH_EMOJI)
      "1️⃣ [Point 1]\n            2️⃣ [Point 2]\n            3️⃣ [Point 3]\n            4️⃣ [Point 4]\n            5️⃣ [Point 5]" := by
  have hsplit :
      ("\n            Structure the post exactly like this:\n            \n            [Title] Create an attention-grabbing headline that's insightful without being hyperbolic.\n            \n            [Two opening lines about the topic that provide non-obvious, slightly contrarian takes]\n            \n            "
        ++ "1️⃣ [Point 1]\n            2️⃣ [Point 2]\n            3️⃣ [Point 3]\n            4️⃣ [Point 4]\n            5️⃣ [Point 5]"
        ++ "\n            \n            [Two closing lines that are insightful and thought-provoking, drawing on the points above]\n            \n            Use exactly 4-5 emojis total throughout the post (including title). Place the emojis naturally within the text.\n            "
        : String)
        = "\n            Structure the post exactly like this:\n            \n            [Title] Create an attention-grabbing headline that's insightful without being hyperbolic.\n            \n            [Two opening lines about the topic that provide non-obvious, slightly contrarian takes]\n            \n            1️⃣ [Point 1]\n            2️⃣ [Point 2]\n            3️⃣ [Point 3]\n            4️⃣ [Point 4]\n            5️⃣ [Point 5]\n            \n            [Two closing lines that are insightful and thought-provoking, drawing on the points above]\n            \n            Use exactly 4-5 emojis total throughout the post (including title). Place the emojis naturally within the text.\n            " := by
    decide
  refine ⟨"\n            Structure the post exactly like this:\n            \n            [Title] Create an attention-grabbing headline that's insightful without being hyperbolic.\n            \n            [Two opening lines about the topic that provide non-obvious, slightly contrarian takes]\n            \n            ".data,
    "\n            \n            [Two closing lines that are insightful and thought-provoking, drawing on the points above]\n            \n            Use exactly 4-5 emojis total throughout the post (including title). Place the emojis naturally within the text.\n            ".data
      ++ g.data ++ "\n            ".data, ?_⟩
  rw [formats, ← hsplit]
  simp [data_app, List.append_assoc]

/-- The accumulator of the streaming loop: folding the chunks from any
starting accumulator appends exactly the non-`None` fragments in order. -/
theorem stream_foldl (chunks : List (Option String)) (acc : List String) :
    chunks.foldl
        (fun content c =>
          match c with
          | some content_piece => content ++ [content_piece]
          | none => content)
        acc
      = acc ++ chunks.filterMap id := by
  induction chunks generalizing acc with
  | nil => simp
  | cons c t ih =>
    cases c with
    | none => simp [ih]
    | some piece => simp [ih]

/-- The streamed result is exactly the concatenation, in arrival order, of
the non-`None` fragments. -/
theorem stream_response_join (chunks : List (Option String)) :
    stream_response chunks = String.join (chunks.filterMap id) := by
  rw [stream_response, stream_foldl]
  simp

/-- A choice returned by the re-prompting loop is one of the valid ones. -/
theorem read_valid_choice_mem (valid stdin : List String) (x : String) (rest : List String)
    (h : read_valid_choice valid stdin = some (x, rest)) : x ∈ valid := by
  induction stdin with
  | nil => exact absurd h (by simp [read_valid_choice])
  | cons a t ih =>
    rw [read_valid_choice] at h
    split at h
    · cases h
      assumption
    · exact ih h

/-- `length_map` only produces the three enumerated lengths. -/
theorem length_map_vals (s l : String) (h : length_map s = some l) :
    l = "short" ∨ l = "medium" ∨ l = "long" := by
  unfold length_map at h
  split at h <;> simp_all

/-- `format_map` sends exactly the choice "2" to the story-based format. -/
theorem format_map_story (s : String) :
    format_map s = some (FormatValue.enum PostFormat.STORY_BASED) ↔ s = "2" := by
  constructor
  · intro h
    unfold format_map at h
    split at h <;> simp_all
  · rintro rfl
    rfl

/-- Inversion of a successful run of `get_user_preferences`: the consumed
tokens and the constructed config, step by step. -/
theorem gup_inv (stdin : List String) (cfg : PostConfig) (rest : List String)
    (h : get_user_preferences stdin = some (cfg, rest)) :
    ∃ topic rest1 format_choice rest2 format_type is_customer_story rest3 length_choice rest4 length,
      stdin = topic :: rest1 ∧
      read_valid_choice ["1", "2", "3", "4"] rest1 = some (format_choice, rest2) ∧
      format_map format_choice = some format_type ∧
      ask_customer format_choice rest2 = some (is_customer_story, rest3) ∧
      read_valid_choice ["1", "2", "3"] rest3 = some (length_choice, rest4) ∧
      length_map length_choice = some length ∧
      cfg = ⟨format_type, topic, length, is_customer_story⟩ ∧ rest = rest4 := by
  cases stdin with
  | nil => exact absurd h (by simp [get_user_preferences])
  | cons topic rest1 =>
    rw [get_user_preferences] at h
    simp only [Option.bind_eq_some, Option.map_eq_some'] at h
    obtain ⟨⟨format_choice, rest2⟩, h1, ⟨format_type, h2, ⟨is_cs, rest3⟩, h3,
      ⟨length_choice, rest4⟩, h4, length, h5, h6⟩⟩ := h
    obtain ⟨hcfg, hrest⟩ := Prod.mk.injEq .. ▸ h6
    exact ⟨topic, rest1, format_choice, rest2, format_type, is_cs, rest3, length_choice,
      rest4, length, rfl, h1, h2, h3, h4, h5, hcfg.symm, hrest.symm⟩

/-- C1 counterexample: with `is_customer_story = true` and the
facts-with-emoji (non-story) format, the instruction built by
`_create_format_prompt` does contain the customer-story framing fragment,
although the claim requires it to be absent for that combination. -/
theorem c1_counterexample :
    ∃ p, create_format_prompt "r"
        ⟨FormatValue.enum PostFormat.FACTS_WITH_EMOJI, "x", "medium", true⟩ = some p ∧
      HasSub p (customer_story_note true) ∧
      (⟨FormatValue.enum PostFormat.FACTS_WITH_EMOJI, "x", "medium", true⟩ : PostConfig).is_customer_story
        = true ∧
      (⟨FormatValue.enum PostFormat.FACTS_WITH_EMOJI, "x", "medium", true⟩ : PostConfig).format_type
        ≠ FormatValue.enum PostFormat.STORY_BASED := by
  refine ⟨full_prompt "r" ⟨FormatValue.enum PostFormat.FACTS_WITH_EMOJI, "x", "medium", true⟩
      "Aim for around 250-300 words total.", ?_, ?_, rfl, by decide⟩
  · rw [create_eq_some]
    exact ⟨_, rfl, rfl⟩
  · exact full_prompt_note _ _ _ rfl

/-- C1 (corrected): the framing fragment is governed by the
`is_customer_story` flag alone, independent of `format_type`: every
successfully built instruction with the flag true contains the fragment,
and with the flag false the fragment is absent, witnessed for all four
formats at fragment-free inputs (topic "x", research "r"). -/
theorem c1_thm :
    (∀ (research_content topic : String) (fv : FormatValue) (len p : String),
      create_format_prompt research_content ⟨fv, topic, len, true⟩ = some p →
      HasSub p (customer_story_note true)) ∧
    (∀ f : PostFormat,
      ∃ p, create_format_prompt "r" ⟨FormatValue.enum f, "x", "medium", false⟩ = some p ∧
        ¬ HasSub p (customer_story_note true)) := by
  constructor
  · intro research_content topic fv len p h
    rw [create_eq_some] at h
    obtain ⟨g, hg, rfl⟩ := h
    exact full_prompt_note _ _ _ rfl
  · intro f
    refine ⟨full_prompt "r" ⟨FormatValue.enum f, "x", "medium", false⟩
        "Aim for around 250-300 words total.", ?_, ?_⟩
    · rw [create_eq_some]
      exact ⟨_, rfl, rfl⟩
    · rw [hasSub_iff]
      cases f <;> decide

/-- C1 witness: the corrected theorem applied at a concrete input. -/
theorem c1_witness :
    HasSub (full_prompt "r" ⟨FormatValue.enum PostFormat.GUIDE_BASED, "x", "short", true⟩
      "Keep the post concise, around 150-200 words.") (customer_story_note true) :=
  c1_thm.1 "r" "x" (FormatValue.enum PostFormat.GUIDE_BASED) "short" _ rfl

/-- C2 (confirmed): for every research, topic, customer-story flag, each
of the four format variants and each valid length, the built instruction
contains the literal topic and the word-count phrase of that length; in
particular the facts_with_emoji and short scenario for topic "electric
vehicles" contains "electric vehicles", "150-200 words" and the 5-point
emoji-numbered block. -/
theorem c2_thm :
    (∀ (research_content topic : String) (f : PostFormat) (cs : Bool) (len : String),
      len = "short" ∨ len = "medium" ∨ len = "long" →
      ∃ p, create_format_prompt research_content ⟨FormatValue.enum f, topic, len, cs⟩ = some p ∧
        HasSub p topic ∧
        HasSub p (if len = "short" then "150-200 words"
          else if len = "medium" then "250-300 words" else "350-450 words")) ∧
    (∀ research_content : String,
      ∃ p, create_format_prompt research_content
          ⟨FormatValue.enum PostFormat.FACTS_WITH_EMOJI, "electric vehicles", "short", false⟩
            = some p ∧
        HasSub p "electric vehicles" ∧ HasSub p "150-200 words" ∧
        HasSub p "1️⃣ [Point 1]\n            2️⃣ [Point 2]\n            3️⃣ [Point 3]\n            4️⃣ [Point 4]\n            5️⃣ [Point 5]") := by
  have hs : HasSub "Keep the post concise, around 150-200 words." "150-200 words" :=
    (hasSub_iff _ _).mpr (by decide)
  have hm : HasSub "Aim for around 250-300 words total." "250-300 words" :=
    (hasSub_iff _ _).mpr (by decide)
  have hl : HasSub "Create a more detailed post of around 350-450 words." "350-450 words" :=
    (hasSub_iff _ _).mpr (by decide)
  constructor
  · intro research_content topic f cs len hlen
    rcases hlen with rfl | rfl | rfl
    · refine ⟨full_prompt research_content ⟨FormatValue.enum f, topic, "short", cs⟩
          "Keep the post concise, around 150-200 words.",
        by rw [create_eq_some]; exact ⟨_, rfl, rfl⟩, full_prompt_topic _ _ _, ?_⟩
      rw [if_pos rfl]
      exact hasSub_trans _ _ _ (full_prompt_guide _ _ _) hs
    · refine ⟨full_prompt research_content ⟨FormatValue.enum f, topic, "medium", cs⟩
          "Aim for around 250-300 words total.",
        by rw [create_eq_some]; exact ⟨_, rfl, rfl⟩, full_prompt_topic _ _ _, ?_⟩
      rw [if_neg (by decide), if_pos rfl]
      exact hasSub_trans _ _ _ (full_prompt_guide _ _ _) hm
    · refine ⟨full_prompt research_content ⟨FormatValue.enum f, topic, "long", cs⟩
          "Create a more detailed post of around 350-450 words.",
        by rw [create_eq_some]; exact ⟨_, rfl, rfl⟩, full_prompt_topic _ _ _, ?_⟩
      rw [if_neg (by decide), if_neg (by decide)]
      exact hasSub_trans _ _ _ (full_prompt_guide _ _ _) hl
  · intro research_content
    refine ⟨full_prompt research_content
        ⟨FormatValue.enum PostFormat.FACTS_WITH_EMOJI, "electric vehicles", "short", false⟩
        "Keep the post concise, around 150-200 words.",
      by rw [create_eq_some]; exact ⟨_, rfl, rfl⟩, full_prompt_topic _ _ _,
      hasSub_trans _ _ _ (full_prompt_guide _ _ _) hs,
      hasSub_trans _ _ _ (full_prompt_template _ _ _)
        (facts_block "electric vehicles" "Keep the post concise, around 150-200 words.")⟩

/-- C2 witness: the theorem applied at a concrete input. -/
theorem c2_witness :
    ∃ p, create_format_prompt "r"
        ⟨FormatValue.enum PostFormat.FACTS_WITH_EMOJI, "t", "short", false⟩ = some p ∧
      HasSub p "t" ∧
      HasSub p (if "short" = "short" then "150-200 words"
        else if "short" = "medium" then "250-300 words" else "350-450 words") :=
  c2_thm.1 "r" "t" PostFormat.FACTS_WITH_EMOJI false "short" (Or.inl rfl)

/-- C3 (confirmed): streaming and non-streaming delivery agree on
identical upstream content, i.e. when the arrival-order concatenation of
the stream's non-null fragments equals the single-shot body text. -/
theorem c3_thm (chunks : List (Option String)) (body : String)
    (h : String.join (chunks.filterMap id) = body) :
    get_research true chunks body = get_research false chunks body := by
  simp [get_research, get_complete_response, stream_response_join, h]

/-- C3 witness: the theorem applied at a concrete stream and body. -/
theorem c3_witness :
    get_research true [some "a", none, some "b"] "ab" =
      get_research false [some "a", none, some "b"] "ab" :=
  c3_thm [some "a", none, some "b"] "ab" (by decide)

/-- C4 counterexample: `PostConfig.__init__` performs no validation, so a
directly constructed config with length "banana" is reachable through the
public interface and violates the claimed three-value invariant. -/
theorem c4_counterexample :
    ¬ ((PostConfig.mk (FormatValue.enum PostFormat.FACTS_WITH_EMOJI) "t" "banana" false).length
          = "short" ∨
       (PostConfig.mk (FormatValue.enum PostFormat.FACTS_WITH_EMOJI) "t" "banana" false).length
          = "medium" ∨
       (PostConfig.mk (FormatValue.enum PostFormat.FACTS_WITH_EMOJI) "t" "banana" false).length
          = "long") := by
  decide

/-- C4 (corrected): the three-value length invariant does hold for every
config produced by the interactive collection, whose length always comes
from `length_map`; direct construction of `PostConfig` does not enforce
it. -/
theorem c4_thm (stdin : List String) (cfg : PostConfig) (rest : List String)
    (h : get_user_preferences stdin = some (cfg, rest)) :
    cfg.length = "short" ∨ cfg.length = "medium" ∨ cfg.length = "long" := by
  obtain ⟨topic, r1, fc, r2, ft, ics, r3, lc, r4, len, hstdin, h1, h2, h3, h4, h5, rfl, rfl⟩ :=
    gup_inv _ _ _ h
  exact length_map_vals _ _ h5

/-- C4 witness: the corrected theorem applied at a concrete input. -/
theorem c4_witness :
    (⟨FormatValue.enum PostFormat.FACTS_WITH_EMOJI, "t", "short", false⟩ : PostConfig).length
        = "short" ∨
    (⟨FormatValue.enum PostFormat.FACTS_WITH_EMOJI, "t", "short", false⟩ : PostConfig).length
        = "medium" ∨
    (⟨FormatValue.enum PostFormat.FACTS_WITH_EMOJI, "t", "short", false⟩ : PostConfig).length
        = "long" :=
  c4_thm ["t", "1", "1"]
    ⟨FormatValue.enum PostFormat.FACTS_WITH_EMOJI, "t", "short", false⟩ [] (by decide)

/-- C5 (confirmed): a `format_type` outside the four enum members makes
`formats.get` fall back to the facts-with-emoji template: the built
instruction equals the one for `FACTS_WITH_EMOJI`, and with a valid
length it is built without error. -/
theorem c5_thm (s research_content topic len : String) (cs : Bool) :
    create_format_prompt research_content ⟨FormatValue.other s, topic, len, cs⟩ =
      create_format_prompt research_content
        ⟨FormatValue.enum PostFormat.FACTS_WITH_EMOJI, topic, len, cs⟩ ∧
    (len = "short" ∨ len = "medium" ∨ len = "long" →
      ∃ p, create_format_prompt research_content ⟨FormatValue.other s, topic, len, cs⟩ = some p) := by
  constructor
  · cases h : length_guide len <;> simp [create_format_prompt, h, full_prompt, formatsGet]
  · rintro (rfl | rfl | rfl) <;> exact ⟨_, rfl⟩

/-- C5 witness: the theorem applied at a concrete unmapped format value. -/
theorem c5_witness :
    (create_format_prompt "r" ⟨FormatValue.other "bogus", "t", "short", false⟩ =
      create_format_prompt "r"
        ⟨FormatValue.enum PostFormat.FACTS_WITH_EMOJI, "t", "short", false⟩) ∧
    ∃ p, create_format_prompt "r" ⟨FormatValue.other "bogus", "t", "short", false⟩ = some p :=
  ⟨(c5_thm "bogus" "r" "t" "short" false).1,
   (c5_thm "bogus" "r" "t" "short" false).2 (Or.inl rfl)⟩

/-- C6 (confirmed): if either required environment credential is absent or
empty, startup returns the corresponding descriptive error and no service
client is constructed. -/
theorem c6_thm (env : String → Option String)
    (h : (env "PERPLEXITY_API_KEY" = none ∨ env "PERPLEXITY_API_KEY" = some "") ∨
         (env "ANTHROPIC_API_KEY" = none ∨ env "ANTHROPIC_API_KEY" = some "")) :
    ∃ msg, generator_init env = Except.error msg ∧
      (msg = "PERPLEXITY_API_KEY not found in environment variables" ∨
       msg = "ANTHROPIC_API_KEY not found in environment variables") := by
  by_cases hp : truthy (env "PERPLEXITY_API_KEY") = true
  · have ha : truthy (env "ANTHROPIC_API_KEY") = false := by
      rcases h with (h1 | h1) | (h1 | h1)
      · rw [h1] at hp; exact absurd hp (by decide)
      · rw [h1] at hp; exact absurd hp (by decide)
      · rw [h1]; rfl
      · rw [h1]; rfl
    exact ⟨_, by simp [generator_init, hp, ha], Or.inr rfl⟩
  · have hp' : truthy (env "PERPLEXITY_API_KEY") = false := by
      cases hx : truthy (env "PERPLEXITY_API_KEY")
      · rfl
      · exact absurd hx hp
    exact ⟨_, by simp [generator_init, hp'], Or.inl rfl⟩

/-- C6 witness: the theorem applied to the empty environment. -/
theorem c6_witness :
    ∃ msg, generator_init (fun _ => none) = Except.error msg ∧
      (msg = "PERPLEXITY_API_KEY not found in environment variables" ∨
       msg = "ANTHROPIC_API_KEY not found in environment variables") :=
  c6_thm (fun _ => none) (Or.inl (Or.inl rfl))

/-- C7 (confirmed): choosing restart in REVIEW makes the whole session
equal a fresh `feedback_loop` run on the remaining input: the prior post
text and every field of the prior configuration are discarded, and the
caller receives whatever post the new session accepts. -/
theorem c7_thm (fuel : Nat) (svc : Services) (stdin : List String) (config : PostConfig)
    (rest r2 : List String)
    (h1 : get_user_preferences stdin = some (config, rest))
    (h2 : review_loop svc (generate_post svc config) rest = ReviewOutcome.restart r2) :
    feedback_loop (fuel + 1) svc stdin = feedback_loop fuel svc r2 := by
  simp only [feedback_loop, h1, h2]

/-- C7 witness: the theorem applied to a concrete session that restarts. -/
theorem c7_witness :
    feedback_loop 2 demo_services ["ev", "1", "1", "3", "ai", "1", "2", "2"] =
      feedback_loop 1 demo_services ["ai", "1", "2", "2"] :=
  c7_thm 1 demo_services ["ev", "1", "1", "3", "ai", "1", "2", "2"]
    ⟨FormatValue.enum PostFormat.FACTS_WITH_EMOJI, "ev", "short", false⟩
    ["3", "ai", "1", "2", "2"] ["ai", "1", "2", "2"] (by decide) (by decide)

/-- C8 (confirmed): choosing revise calls `revise_post` on the current
post text and the collected feedback, replaces the post with the result
and stays in REVIEW; iterating, a session of n revisions followed by
accept returns the left fold of `revise_post` over the feedback list —
each revision operates on the most recently replaced text and accept
returns the latest text. -/
theorem c8_thm :
    (∀ (svc : Services) (post feedback : String) (rest : List String),
      review_loop svc post ("1" :: feedback :: rest) =
        review_loop svc (svc.revise_post post feedback) rest) ∧
    (∀ (svc : Services) (post : String) (fbs rest : List String),
      review_loop svc post (revise_script fbs ++ "2" :: rest) =
        ReviewOutcome.accepted (fbs.foldl svc.revise_post post) rest) := by
  constructor
  · intro svc post feedback rest
    simp [review_loop]
  · intro svc post fbs rest
    induction fbs generalizing post with
    | nil =>
      rw [revise_script, List.nil_append, review_loop.eq_def]
      simp
    | cons fb t ih => simp [revise_script, review_loop, ih]

/-- C9 (confirmed): any menu input other than "1", "2", "3" at REVIEW
leaves the loop exactly where it was: same post text, no service call, no
termination — the continuation is the same review loop on the remaining
input. -/
theorem c9_thm (svc : Services) (post choice : String) (rest : List String)
    (h1 : choice ≠ "1") (h2 : choice ≠ "2") (h3 : choice ≠ "3") :
    review_loop svc post (choice :: rest) = review_loop svc post rest := by
  rw [review_loop.eq_def]
  simp only []
  rw [if_neg h1, if_neg h2, if_neg h3]

/-- C9 witness: the theorem applied to the invalid choice "7". -/
theorem c9_witness : review_loop demo_services "p" ["7"] = review_loop demo_services "p" [] :=
  c9_thm demo_services "p" "7" [] (by decide) (by decide) (by decide)

/-- C10 (confirmed): interactively collected configs have
`is_customer_story = false` unless the story-based format was chosen; when
it was, the answer token right after the format choice decides the flag,
true exactly for a case-insensitive "y". -/
theorem c10_thm (stdin : List String) (cfg : PostConfig) (rest : List String)
    (h : get_user_preferences stdin = some (cfg, rest)) :
    (cfg.format_type ≠ FormatValue.enum PostFormat.STORY_BASED → cfg.is_customer_story = false) ∧
    (cfg.format_type = FormatValue.enum PostFormat.STORY_BASED →
      ∃ topic rest1 answer rest3, stdin = topic :: rest1 ∧
        read_valid_choice ["1", "2", "3", "4"] rest1 = some ("2", answer :: rest3) ∧
        (cfg.is_customer_story = true ↔ str_lower answer = "y")) := by
  obtain ⟨topic, r1, fc, r2, ft, ics, r3, lc, r4, len, hstdin, h1, h2, h3, h4, h5, rfl, rfl⟩ :=
    gup_inv _ _ _ h
  constructor
  · intro hne
    by_cases hfc : fc = "2"
    · subst hfc
      have hft : ft = FormatValue.enum PostFormat.STORY_BASED := by
        have h2' : (some (FormatValue.enum PostFormat.STORY_BASED) : Option FormatValue)
            = some ft := h2
        injection h2' with h2''
        exact h2''.symm
      exact absurd hft hne
    · unfold ask_customer at h3
      rw [if_neg hfc] at h3
      injection h3 with hh
      exact (congrArg Prod.fst hh).symm
  · intro heq
    have hft : ft = FormatValue.enum PostFormat.STORY_BASED := heq
    have hfc : fc = "2" := (format_map_story fc).mp (hft ▸ h2)
    subst hfc
    unfold ask_customer at h3
    rw [if_pos rfl] at h3
    cases r2 with
    | nil => exact absurd h3 (by simp)
    | cons answer r3' =>
      injection h3 with hh
      have hics : (str_lower answer == "y") = ics := congrArg Prod.fst hh
      refine ⟨topic, r1, answer, r3', hstdin, by rw [h1], ?_⟩
      show ics = true ↔ str_lower answer = "y"
      rw [← hics]
      exact beq_iff_eq

/-- C10 witness: the theorem applied to a concrete interactive session
choosing the story-based format and answering "Y". -/
theorem c10_witness :
    ((⟨FormatValue.enum PostFormat.STORY_BASED, "ev", "short", true⟩ : PostConfig).format_type
        ≠ FormatValue.enum PostFormat.STORY_BASED →
      (⟨FormatValue.enum PostFormat.STORY_BASED, "ev", "short", true⟩ : PostConfig).is_customer_story
        = false) ∧
    ((⟨FormatValue.enum PostFormat.STORY_BASED, "ev", "short", true⟩ : PostConfig).format_type
        = FormatValue.enum PostFormat.STORY_BASED →
      ∃ topic rest1 answer rest3, ["ev", "2", "Y", "1"] = topic :: rest1 ∧
        read_valid_choice ["1", "2", "3", "4"] rest1 = some ("2", answer :: rest3) ∧
        ((⟨FormatValue.enum PostFormat.STORY_BASED, "ev", "short", true⟩ : PostConfig).is_customer_story
            = true ↔ str_lower answer = "y")) :=
  c10_thm ["ev", "2", "Y", "1"]
    ⟨FormatValue.enum PostFormat.STORY_BASED, "ev", "short", true⟩ [] (by decide)
